import Mathlib

/-!
Shallow embedding of `src/main.c` of gst-multisource-launch: the supervisor
context (`GstMultiSource`), the pipeline-description builder (`add_branch`),
the state controller (`set_player_state`, `change_player_state`), the bus
message handlers for buffering and stream-collection messages, the keyboard
handler, and the top-level control flow of `main`.  External framework calls
(`gst_element_set_state`, `gst_parse_launch_full`, bus delivery) are modelled
by passing their results in as parameters and recording the requests the
supervisor emits.
-/

/-- `GstState` as used by the program (GStreamer's state enum; `VOID_PENDING`
is the zero value produced by `g_new0`). -/
inductive GstState where
  | VOID_PENDING
  | NULL
  | READY
  | PAUSED
  | PLAYING
deriving DecidableEq, Repr

/-- Result codes of a state-change request (`GstStateChangeReturn`). -/
inductive GstStateChangeReturn where
  | FAILURE
  | SUCCESS
  | ASYNC
  | NO_PREROLL
deriving DecidableEq, Repr

/-- Numeric value of `GST_STREAM_TYPE_AUDIO` (a bit flag, `1 << 1`). -/
def GST_STREAM_TYPE_AUDIO : Nat := 2

/-- Numeric value of `GST_STREAM_TYPE_VIDEO` (a bit flag, `1 << 2`). -/
def GST_STREAM_TYPE_VIDEO : Nat := 4

/-- The fields of the `GstMultiSource` context that the supervisory logic
reads or writes (handles to the loop, bus, pipeline and watches are opaque
external resources and are not part of the state model). -/
structure GstMultiSource where
  pipeline_description : Option String
  muxer : String
  sink : String
  interactive : Bool
  streams_selected : Nat
  state : GstState
  auto_play : Bool
  verbose : Bool
  buffering : Bool
  is_live : Bool
deriving DecidableEq, Repr

/-- The context as allocated by `g_new0`: every field zero / false / NULL. -/
def new0_ctx : GstMultiSource :=
  { pipeline_description := none
    muxer := ""
    sink := ""
    interactive := false
    streams_selected := 0
    state := .VOID_PENDING
    auto_play := false
    verbose := false
    buffering := false
    is_live := false }

/-- `DEFAULT_MUXER` from `main.c`. -/
def DEFAULT_MUXER : String := "multipartmux"

/-- `DEFAULT_SINK` from `main.c`. -/
def DEFAULT_SINK : String := "fakesink"

/-- `add_branch` (main.c:338-354): append one source branch to the pipeline
description.  The first branch carries the muxer and sink; every later branch
links into the named muxer. -/
def add_branch (thiz : GstMultiSource) (src_uri : String) : GstMultiSource :=
  match thiz.pipeline_description with
  | none =>
      let desc := "urisourcebin uri=" ++ src_uri ++ " ! decodebin3 ! " ++ thiz.muxer ++ " name=muxer ! " ++ thiz.sink
      { thiz with pipeline_description := some desc }
  | some old_pipeline_description =>
      let desc := old_pipeline_description ++ " urisourcebin uri=" ++ src_uri ++ " ! decodebin3 ! muxer."
      { thiz with pipeline_description := some desc }

/-- The fragment produced for the first URI. -/
def first_fragment (muxer sink uri : String) : String :=
  "urisourcebin uri=" ++ uri ++ " ! decodebin3 ! " ++ muxer
    ++ " name=muxer ! " ++ sink

/-- The fragment appended for every subsequent URI (with its leading
separating space). -/
def next_fragment (uri : String) : String :=
  " urisourcebin uri=" ++ uri ++ " ! decodebin3 ! muxer."

/-- Concatenation of the later fragments, in list order. -/
def joinFrags : List String → String
  | [] => ""
  | f :: rest => f ++ joinFrags rest

/-- The description accumulated by `main`'s loop over the source array
(main.c:478-484, with `repeat = 1`): fold `add_branch` over the URIs. -/
def build_description (muxer sink : String) (uris : List String) :
    Option String :=
  (uris.foldl add_branch
    { new0_ctx with muxer := muxer, sink := sink }).pipeline_description

theorem add_branch_muxer (thiz : GstMultiSource) (u : String) :
    (add_branch thiz u).muxer = thiz.muxer := by
  unfold add_branch
  cases thiz.pipeline_description <;> rfl

theorem foldl_add_branch_some (uris : List String)
    (thiz : GstMultiSource) (s : String)
    (h : thiz.pipeline_description = some s) :
    (uris.foldl add_branch thiz).pipeline_description
      = some (s ++ joinFrags (uris.map next_fragment)) := by
  induction uris generalizing thiz s with
  | nil => simpa [joinFrags] using h
  | cons u rest ih =>
      have hstep : (add_branch thiz u).pipeline_description
          = some (s ++ next_fragment u) := by
        simp only [add_branch, h, next_fragment]
        rw [String.append_assoc, String.append_assoc, String.append_assoc]
      rw [List.foldl_cons, ih _ _ hstep]
      simp [joinFrags, String.append_assoc]

/-- C1: for every non-empty URI list the assembled description is the first
fragment `urisourcebin uri=U1 ! decodebin3 ! <muxer> name=muxer ! <sink>`
followed in order by ` urisourcebin uri=Ui ! decodebin3 ! muxer.` for each
later URI; in particular for `["A","B"]` with the default muxer and sink it
is the exact string the spec gives. -/
theorem assembled_description_shape (muxer sink u : String)
    (rest : List String) :
    build_description muxer sink (u :: rest)
        = some (first_fragment muxer sink u
            ++ joinFrags (rest.map next_fragment))
    ∧ build_description DEFAULT_MUXER DEFAULT_SINK ["A", "B"]
        = some ("urisourcebin uri=A ! decodebin3 ! multipartmux name=muxer ! fakesink urisourcebin uri=B ! decodebin3 ! muxer.") := by
  constructor
  · unfold build_description
    rw [List.foldl_cons]
    exact foldl_add_branch_some rest _ _ rfl
  · rfl

/-- `set_player_state` (main.c:91-118): request a state transition on the
pipeline.  The framework's reply `ret` (the value `gst_element_set_state`
returns) is a parameter.  Returns the boolean result together with the
updated context: only a `NO_PREROLL` reply touches the context, marking the
pipeline live; the recorded `state` field is never written here. -/
def set_player_state (thiz : GstMultiSource) (state : GstState)
    (ret : GstStateChangeReturn) : Bool × GstMultiSource :=
  match ret with
  | .FAILURE => (false, thiz)
  | .NO_PREROLL => (true, { thiz with is_live := true })
  | .ASYNC => (true, thiz)
  | .SUCCESS => (true, thiz)

/-- `change_player_state` (main.c:120-142): record a confirmed state and
apply the auto-play policy.  Identity when the recorded state already equals
the confirmed one; otherwise the state is recorded and, with auto-play on,
`READY` triggers a `PAUSED` request and `PAUSED` a `PLAYING` request.  The
reply `ret` feeds the nested `set_player_state` call when one happens; the
second component lists the state requests emitted. -/
def change_player_state (thiz : GstMultiSource) (state : GstState)
    (ret : GstStateChangeReturn) : GstMultiSource × List GstState :=
  if thiz.state = state then (thiz, [])
  else
    let thiz := { thiz with state := state }
    match state with
    | .READY =>
        if thiz.auto_play then
          ((set_player_state thiz .PAUSED ret).2, [.PAUSED])
        else (thiz, [])
    | .PAUSED =>
        if thiz.auto_play then
          ((set_player_state thiz .PLAYING ret).2, [.PLAYING])
        else (thiz, [])
    | _ => (thiz, [])

/-- The `GST_MESSAGE_BUFFERING` arm of `message_cb` (main.c:259-287).  Live
pipelines break out at once.  At 100% the buffering flag is cleared and, if
the recorded state is `PLAYING`, one `PLAYING` request is emitted; below
100% a `PAUSED` request is emitted only when not already buffering and the
recorded state is `PLAYING`, and the buffering flag is set.  These requests
go straight to `gst_element_set_state`, bypassing `set_player_state`. -/
def handle_buffering (thiz : GstMultiSource) (percent : Int) :
    GstMultiSource × List GstState :=
  if thiz.is_live then (thiz, [])
  else if percent = 100 then
    let thiz := { thiz with buffering := false }
    if thiz.state = .PLAYING then (thiz, [.PLAYING]) else (thiz, [])
  else
    if ¬thiz.buffering ∧ thiz.state = .PLAYING then
      ({ thiz with buffering := true }, [.PAUSED])
    else
      ({ thiz with buffering := true }, [])

/-- C4: in a non-live run, a buffering percentage below 100 while the
recorded state is `PLAYING` and the buffering flag is clear emits exactly
one `PAUSED` request and sets the flag; a 100% event clears the flag and
emits exactly one `PLAYING` request when the recorded state is `PLAYING`
(none otherwise); with the liveness flag set, a buffering event changes
nothing and emits no request. -/
theorem buffering_policy (thiz : GstMultiSource) (percent : Int) :
    (thiz.is_live = false → percent < 100 → thiz.state = .PLAYING →
        thiz.buffering = false →
        handle_buffering thiz percent
          = ({ thiz with buffering := true }, [.PAUSED]))
    ∧ (thiz.is_live = false →
        handle_buffering thiz 100
          = ({ thiz with buffering := false },
              if thiz.state = .PLAYING then [.PLAYING] else []))
    ∧ (thiz.is_live = true → handle_buffering thiz percent = (thiz, [])) := by
  refine ⟨?_, ?_, ?_⟩
  · intro hl hp hs hb
    have hp' : percent ≠ 100 := by omega
    simp [handle_buffering, hl, hp', hs, hb]
  · intro hl
    by_cases hs : thiz.state = .PLAYING <;> simp [handle_buffering, hl, hs]
  · intro hl
    simp [handle_buffering, hl]

/-- Concrete run of C4: a context in `PLAYING`, not live, not buffering,
receiving a 42% buffering event, then a 100% one. -/
theorem buffering_policy_witness :
    (handle_buffering
        { new0_ctx with state := .PLAYING } 42
      = ({ new0_ctx with state := .PLAYING, buffering := true }, [.PAUSED]))
    ∧ (handle_buffering
        { new0_ctx with state := .PLAYING, buffering := true } 100
      = ({ new0_ctx with state := .PLAYING }, [.PLAYING]))
    ∧ (handle_buffering
        { new0_ctx with state := .PLAYING, is_live := true } 42
      = ({ new0_ctx with state := .PLAYING, is_live := true }, [])) := by
  refine ⟨?_, ?_, ?_⟩
  · exact (buffering_policy { new0_ctx with state := .PLAYING } 42).1
      rfl (by decide) rfl rfl
  · have h := (buffering_policy
        { new0_ctx with state := .PLAYING, buffering := true } 100).2.1 rfl
    simpa using h
  · exact (buffering_policy
        { new0_ctx with state := .PLAYING, is_live := true } 42).2.2 rfl

/-- C5: on a confirmed state change of the pipeline, with auto-play on, a
`READY` confirmation (from a different recorded state) emits exactly one
`PAUSED` request and a `PAUSED` confirmation exactly one `PLAYING` request;
with auto-play off, every confirmation emits no request at all. -/
theorem auto_play_policy (thiz : GstMultiSource)
    (ret : GstStateChangeReturn) :
    (thiz.auto_play = true → thiz.state ≠ .READY →
        (change_player_state thiz .READY ret).2 = [.PAUSED])
    ∧ (thiz.auto_play = true → thiz.state ≠ .PAUSED →
        (change_player_state thiz .PAUSED ret).2 = [.PLAYING])
    ∧ (thiz.auto_play = false → ∀ s : GstState,
        (change_player_state thiz s ret).2 = []) := by
  refine ⟨?_, ?_, ?_⟩
  · intro ha hs
    simp [change_player_state, hs, ha]
  · intro ha hs
    simp [change_player_state, hs, ha]
  · intro ha s
    by_cases hs : thiz.state = s
    · simp [change_player_state, hs]
    · cases s <;> simp [change_player_state, hs, ha]

/-- Concrete run of C5: auto-play chain from `NULL`, and an interactive
(auto-play off) context confirming `READY`. -/
theorem auto_play_policy_witness :
    ((change_player_state { new0_ctx with state := .NULL, auto_play := true }
        .READY .ASYNC).2 = [.PAUSED])
    ∧ ((change_player_state
        { new0_ctx with state := .READY, auto_play := true }
        .PAUSED .ASYNC).2 = [.PLAYING])
    ∧ ((change_player_state
        { new0_ctx with state := .NULL, interactive := true }
        .READY .ASYNC).2 = []) := by
  refine ⟨?_, ?_, ?_⟩
  · exact (auto_play_policy
      { new0_ctx with state := .NULL, auto_play := true } .ASYNC).1
      rfl (by decide)
  · exact (auto_play_policy
      { new0_ctx with state := .READY, auto_play := true } .ASYNC).2.1
      rfl (by decide)
  · exact (auto_play_policy
      { new0_ctx with state := .NULL, interactive := true } .ASYNC).2.2
      rfl .READY

/-- A stream of a `GstStreamCollection`: its stream type flag and id. -/
structure GstStream where
  stype : Nat
  stream_id : String
deriving DecidableEq, Repr

/-- Selection loop of the `GST_MESSAGE_STREAM_COLLECTION` arm of
`message_cb` (main.c:195-211): walk the collection keeping the
`n_video_streams` / `n_audio_streams` counters, appending the stream id
whenever the stream's type is requested in `streams_selected` and no stream
of that type has been taken yet. -/
def collect_selected (streams_selected : Nat) :
    List GstStream → Nat → Nat → List String
  | [], _, _ => []
  | stream :: rest, n_video_streams, n_audio_streams =>
      if (stream.stype = GST_STREAM_TYPE_VIDEO
            ∧ streams_selected &&& GST_STREAM_TYPE_VIDEO ≠ 0
            ∧ n_video_streams < 1)
          ∨ (stream.stype = GST_STREAM_TYPE_AUDIO
            ∧ streams_selected &&& GST_STREAM_TYPE_AUDIO ≠ 0
            ∧ n_audio_streams < 1) then
        stream.stream_id
          :: collect_selected streams_selected rest
              (if stream.stype = GST_STREAM_TYPE_VIDEO then n_video_streams + 1
                else n_video_streams)
              (if stream.stype = GST_STREAM_TYPE_AUDIO then n_audio_streams + 1
                else n_audio_streams)
      else
        collect_selected streams_selected rest n_video_streams n_audio_streams

/-- The stream ids the `STREAM_COLLECTION` arm gathers for one collection
(counters start at zero). -/
def handle_stream_collection (thiz : GstMultiSource)
    (collection : List GstStream) : List String :=
  collect_selected thiz.streams_selected collection 0 0

/-- Whether a stream stays active after the `STREAM_COLLECTION` arm ran:
when the gathered list is empty no select-streams event is sent
(main.c:216) and the framework's default keeps every stream; when it is
non-empty the event makes the framework select exactly the listed ids and
disable every other stream (main.c:212-215). -/
def stream_accepted (thiz : GstMultiSource) (collection : List GstStream)
    (stream : GstStream) : Bool :=
  let selected_streams := handle_stream_collection thiz collection
  if selected_streams.isEmpty then true
  else selected_streams.contains stream.stream_id

theorem collect_selected_zero (collection : List GstStream)
    (nv na : Nat) : collect_selected 0 collection nv na = [] := by
  induction collection generalizing nv na with
  | nil => rfl
  | cons s rest ih => simp [collect_selected, ih]

/-- C3: with no stream-type filter requested (`streams_selected = 0`, i.e.
neither `-A` nor `-V`), the selection list is empty, no select-streams
event is sent, and every stream of every collection stays accepted. -/
theorem no_filter_accepts_all (thiz : GstMultiSource)
    (collection : List GstStream) (stream : GstStream)
    (h : thiz.streams_selected = 0) :
    handle_stream_collection thiz collection = []
    ∧ stream_accepted thiz collection stream = true := by
  have hsel : handle_stream_collection thiz collection = [] := by
    simp [handle_stream_collection, h, collect_selected_zero]
  exact ⟨hsel, by simp [stream_accepted, hsel]⟩

/-- Concrete run of C3: a mixed audio/video collection with no filter. -/
theorem no_filter_accepts_all_witness :
    handle_stream_collection new0_ctx
        [⟨ GST_STREAM_TYPE_AUDIO, "a1"⟩, ⟨GST_STREAM_TYPE_VIDEO, "v1"⟩] = []
    ∧ stream_accepted new0_ctx
        [⟨ GST_STREAM_TYPE_AUDIO, "a1"⟩, ⟨GST_STREAM_TYPE_VIDEO, "v1"⟩]
        ⟨GST_STREAM_TYPE_VIDEO, "v1"⟩ = true :=
  no_filter_accepts_all new0_ctx
    [⟨ GST_STREAM_TYPE_AUDIO, "a1"⟩, ⟨GST_STREAM_TYPE_VIDEO, "v1"⟩]
    ⟨GST_STREAM_TYPE_VIDEO, "v1"⟩ rfl

/-- C2 fails on the code: with the audio-only filter and a collection
holding two audio streams, only the first audio stream is selected — the
second audio stream, although its type matches the requested type, is not
in the selection list and is therefore disabled by the select-streams
event.  The `n_audio_streams < 1` / `n_video_streams < 1` guards
(main.c:199, 201) restrict selection to the first stream per type. -/
theorem first_only_counterexample :
    handle_stream_collection
        { new0_ctx with streams_selected := GST_STREAM_TYPE_AUDIO }
        [⟨ GST_STREAM_TYPE_AUDIO, "a1"⟩, ⟨ GST_STREAM_TYPE_AUDIO, "a2"⟩]
      = ["a1"]
    ∧ stream_accepted
        { new0_ctx with streams_selected := GST_STREAM_TYPE_AUDIO }
        [⟨ GST_STREAM_TYPE_AUDIO, "a1"⟩, ⟨ GST_STREAM_TYPE_AUDIO, "a2"⟩]
        ⟨ GST_STREAM_TYPE_AUDIO, "a2"⟩ = false := by
  constructor
  · rfl
  · rfl

theorem collect_selected_audio_only (collection : List GstStream)
    (nv na : Nat) :
    collect_selected GST_STREAM_TYPE_AUDIO collection nv na
      = if na = 0 then
          (match collection.find?
              (fun s => s.stype == GST_STREAM_TYPE_AUDIO) with
            | some s => [s.stream_id]
            | none => [])
        else [] := by
  have hv : GST_STREAM_TYPE_AUDIO &&& GST_STREAM_TYPE_VIDEO = 0 := by decide
  have ha : ¬ GST_STREAM_TYPE_AUDIO &&& GST_STREAM_TYPE_AUDIO = 0 := by decide
  have han : ¬ GST_STREAM_TYPE_AUDIO = 0 := by decide
  have hav : ¬ GST_STREAM_TYPE_AUDIO = GST_STREAM_TYPE_VIDEO := by decide
  induction collection generalizing nv na with
  | nil => simp [collect_selected]
  | cons stream rest ih =>
      by_cases hty : stream.stype = GST_STREAM_TYPE_AUDIO
      · have hfind : List.find?
            (fun s => s.stype == GST_STREAM_TYPE_AUDIO) (stream :: rest)
            = some stream :=
          List.find?_cons_of_pos _ (by simp [hty])
        by_cases hna : na = 0
        · simp [collect_selected, hty, hav, hna, ha, han, hv, ih, hfind]
        · simp [collect_selected, hty, hav, hna, ha, han, hv, ih, hfind]
      · have hfind : List.find?
            (fun s => s.stype == GST_STREAM_TYPE_AUDIO) (stream :: rest)
            = List.find? (fun s => s.stype == GST_STREAM_TYPE_AUDIO) rest :=
          List.find?_cons_of_neg _ (by simp [hty])
        simp [collect_selected, hty, ha, han, hv, ih, hfind]

theorem collect_selected_sound (sel : Nat) (collection : List GstStream) :
    ∀ (nv na : Nat) (id : String),
      id ∈ collect_selected sel collection nv na →
      ∃ s ∈ collection, s.stream_id = id
        ∧ ((s.stype = GST_STREAM_TYPE_VIDEO
              ∧ sel &&& GST_STREAM_TYPE_VIDEO ≠ 0)
            ∨ (s.stype = GST_STREAM_TYPE_AUDIO
              ∧ sel &&& GST_STREAM_TYPE_AUDIO ≠ 0)) := by
  induction collection with
  | nil =>
      intro nv na id h
      simp [collect_selected] at h
  | cons stream rest ih =>
      intro nv na id h
      rw [collect_selected] at h
      split at h
      case isTrue hc =>
        rcases List.mem_cons.mp h with heq | hmem
        · refine ⟨stream, List.mem_cons_self _ _, heq.symm, ?_⟩
          rcases hc with ⟨h1, h2, _⟩ | ⟨h1, h2, _⟩
          · exact Or.inl ⟨h1, h2⟩
          · exact Or.inr ⟨h1, h2⟩
        · obtain ⟨s, hs, hrest⟩ := ih _ _ _ hmem
          exact ⟨s, List.mem_cons_of_mem _ hs, hrest⟩
      case isFalse hc =>
        obtain ⟨s, hs, hrest⟩ := ih _ _ _ h
        exact ⟨s, List.mem_cons_of_mem _ hs, hrest⟩

/-- C2 amended: with a stream-type filter requested the handler does not
select every matching stream — it selects at most the first stream of each
requested type.  With the audio-only filter the selection list is exactly
the first audio stream's id (empty when the collection has none), so every
other stream, matching or not, is left out of the select-streams event; and
in general every selected id belongs to some stream of a requested type. -/
theorem stream_selection_first_per_type (collection : List GstStream) :
    (handle_stream_collection
        { new0_ctx with streams_selected := GST_STREAM_TYPE_AUDIO }
        collection
      = (match collection.find?
            (fun s => s.stype == GST_STREAM_TYPE_AUDIO) with
          | some s => [s.stream_id]
          | none => []))
    ∧ ∀ (thiz : GstMultiSource) (id : String),
        id ∈ handle_stream_collection thiz collection →
        ∃ s ∈ collection, s.stream_id = id
          ∧ ((s.stype = GST_STREAM_TYPE_VIDEO
                ∧ thiz.streams_selected &&& GST_STREAM_TYPE_VIDEO ≠ 0)
              ∨ (s.stype = GST_STREAM_TYPE_AUDIO
                ∧ thiz.streams_selected &&& GST_STREAM_TYPE_AUDIO ≠ 0)) := by
  constructor
  · have h := collect_selected_audio_only collection 0 0
    simpa [handle_stream_collection] using h
  · intro thiz id h
    exact collect_selected_sound thiz.streams_selected collection 0 0 id h

/-- Concrete run of the amended C2: audio-only filter over two audio
streams and one video stream selects exactly the first audio id, and that
id indeed belongs to an audio stream of the collection. -/
theorem stream_selection_first_per_type_witness :
    ("a1" ∈ handle_stream_collection
        { new0_ctx with streams_selected := GST_STREAM_TYPE_AUDIO }
        [⟨ GST_STREAM_TYPE_AUDIO, "a1"⟩, ⟨ GST_STREAM_TYPE_AUDIO, "a2"⟩,
          ⟨GST_STREAM_TYPE_VIDEO, "v1"⟩])
    ∧ ∃ s ∈ ([⟨ GST_STREAM_TYPE_AUDIO, "a1"⟩, ⟨ GST_STREAM_TYPE_AUDIO, "a2"⟩,
          ⟨GST_STREAM_TYPE_VIDEO, "v1"⟩] : List GstStream),
        s.stream_id = "a1"
        ∧ ((s.stype = GST_STREAM_TYPE_VIDEO
              ∧ GST_STREAM_TYPE_AUDIO &&& GST_STREAM_TYPE_VIDEO ≠ 0)
            ∨ (s.stype = GST_STREAM_TYPE_AUDIO
              ∧ GST_STREAM_TYPE_AUDIO &&& GST_STREAM_TYPE_AUDIO ≠ 0)) := by
  have hmem : "a1" ∈ handle_stream_collection
      { new0_ctx with streams_selected := GST_STREAM_TYPE_AUDIO }
      [⟨ GST_STREAM_TYPE_AUDIO, "a1"⟩, ⟨ GST_STREAM_TYPE_AUDIO, "a2"⟩,
        ⟨GST_STREAM_TYPE_VIDEO, "v1"⟩] := by decide
  refine ⟨hmem, ?_⟩
  exact (stream_selection_first_per_type
      [⟨ GST_STREAM_TYPE_AUDIO, "a1"⟩, ⟨ GST_STREAM_TYPE_AUDIO, "a2"⟩,
        ⟨GST_STREAM_TYPE_VIDEO, "v1"⟩]).2
    { new0_ctx with streams_selected := GST_STREAM_TYPE_AUDIO } "a1" hmem

/-- Action the keyboard handler takes for one input line. -/
inductive KeyAction where
  | quit
  | request (target : GstState)
  | snapshot
  | nothing
deriving DecidableEq, Repr

/-- The `SKIP` macro (main.c:35-41): advance past blanks, newlines, tabs
and carriage returns. -/
def skip_chars : List Char → List Char
  | [] => []
  | c :: rest =>
      if c = ' ' ∨ c = '\n' ∨ c = '\t' ∨ c = '\r' then skip_chars rest
      else c :: rest

/-- `handle_keyboard` (main.c:357-388): read one line, skip leading
whitespace, dispatch on the first remaining character (`\0` when the line
is exhausted).  `q` quits, `p` requests `PLAYING` when the recorded state
is `PAUSED` and `PAUSED` otherwise, `s` dumps a snapshot, anything else
does nothing.  `ret` is the framework's reply to the nested
`set_player_state` call when one happens. -/
def handle_keyboard (thiz : GstMultiSource) (line : List Char)
    (ret : GstStateChangeReturn) : GstMultiSource × KeyAction :=
  let cmd := skip_chars line
  let op : Char := match cmd with
    | [] => Char.ofNat 0
    | c :: _ => c
  if op = 'q' then (thiz, .quit)
  else if op = 'p' then
    if thiz.state = .PAUSED then
      ((set_player_state thiz .PLAYING ret).2, .request .PLAYING)
    else
      ((set_player_state thiz .PAUSED ret).2, .request .PAUSED)
  else if op = 's' then (thiz, .snapshot)
  else (thiz, .nothing)

/-- C9: a line whose first non-whitespace character is `p` requests
`PLAYING` when the recorded state is `PAUSED` and `PAUSED` for every other
recorded state; a first character outside `q`, `p`, `s` causes no action
and leaves the context untouched. -/
theorem keyboard_toggle (thiz : GstMultiSource) (line : List Char)
    (ret : GstStateChangeReturn) :
    ((skip_chars line).head? = some 'p' →
        (handle_keyboard thiz line ret).2
          = .request (if thiz.state = .PAUSED then .PLAYING else .PAUSED))
    ∧ (∀ c : Char, (skip_chars line).head? = some c →
        c ≠ 'q' → c ≠ 'p' → c ≠ 's' →
        handle_keyboard thiz line ret = (thiz, .nothing)) := by
  constructor
  · intro hp
    match hcmd : skip_chars line with
    | [] => rw [hcmd] at hp; simp at hp
    | c :: rest =>
        rw [hcmd] at hp
        simp only [List.head?] at hp
        obtain rfl : c = 'p' := by injection hp
        by_cases hs : thiz.state = .PAUSED <;>
          simp [handle_keyboard, hcmd, hs]
  · intro c hc hq hp hsn
    match hcmd : skip_chars line with
    | [] => rw [hcmd] at hc; simp at hc
    | c' :: rest =>
        rw [hcmd] at hc
        simp only [List.head?] at hc
        obtain rfl : c' = c := by injection hc
        simp [handle_keyboard, hcmd, hq, hp, hsn]

/-- Concrete run of C9: `"  p"` from `PAUSED` and from `READY`, and an
unrecognized `x`. -/
theorem keyboard_toggle_witness :
    ((handle_keyboard { new0_ctx with state := .PAUSED }
        [' ', ' ', 'p', '\n'] .ASYNC).2 = .request .PLAYING)
    ∧ ((handle_keyboard { new0_ctx with state := .READY }
        ['p', '\n'] .ASYNC).2 = .request .PAUSED)
    ∧ (handle_keyboard { new0_ctx with state := .READY }
        ['x', '\n'] .ASYNC
      = ({ new0_ctx with state := .READY }, .nothing)) := by
  refine ⟨?_, ?_, ?_⟩
  · have h := (keyboard_toggle { new0_ctx with state := .PAUSED }
        [' ', ' ', 'p', '\n'] .ASYNC).1 (by decide)
    simpa using h
  · have h := (keyboard_toggle { new0_ctx with state := .READY }
        ['p', '\n'] .ASYNC).1 (by decide)
    simpa using h
  · exact (keyboard_toggle { new0_ctx with state := .READY }
        ['x', '\n'] .ASYNC).2 'x' (by decide) (by decide) (by decide)
        (by decide)

/-- Observable outcome of one run of `main` (main.c:397-542): whether the
usage line was printed, what a failed `gst_parse_launch_full` made the
program report (description text and error message), whether parsing was
attempted at all, whether `g_main_loop_run` was reached, and the process
exit code. -/
structure MainOutcome where
  printed_usage : Bool
  reported_parse_error : Option (String × String)
  attempted_parse : Bool
  entered_loop : Bool
  exit_code : Int
deriving DecidableEq, Repr

/-- `EXIT_SUCCESS` of stdlib.h as returned by `main`. -/
def EXIT_SUCCESS : Int := 0

/-- `main`'s control flow from the option results to the run loop
(main.c:459-522) and the `done` exit path, after a successful option parse
(the only branch that assigns `res = -1`; every later `goto done` leaves
`res` at `EXIT_SUCCESS`).  `sources` is the `-s` array (`[]` models the
NULL array of a run without `-s`); `parse` models `gst_parse_launch_full`,
yielding the error message on failure; `ready_ok` is the boolean result of
the initial `set_player_state (READY)` call. -/
def main_flow (sources : List String) (muxer sink : Option String)
    (parse : String → Option String) (ready_ok : Bool) : MainOutcome :=
  if sources.isEmpty then
    { printed_usage := true
      reported_parse_error := none
      attempted_parse := false
      entered_loop := false
      exit_code := EXIT_SUCCESS }
  else
    let m := muxer.getD DEFAULT_MUXER
    let sk := sink.getD DEFAULT_SINK
    let desc := (build_description m sk sources).getD ""
    match parse desc with
    | some errmsg =>
        { printed_usage := false
          reported_parse_error := some (desc, errmsg)
          attempted_parse := true
          entered_loop := false
          exit_code := EXIT_SUCCESS }
    | none =>
        { printed_usage := false
          reported_parse_error := none
          attempted_parse := true
          entered_loop := ready_ok
          exit_code := EXIT_SUCCESS }

/-- C8: without any `-s` source the program prints the usage line, never
calls the parser (so builds no graph), never reaches the run loop, and
returns through the ordinary `done` path with the success exit code. -/
theorem empty_sources_usage (muxer sink : Option String)
    (parse : String → Option String) (ready_ok : Bool) :
    main_flow [] muxer sink parse ready_ok
      = { printed_usage := true
          reported_parse_error := none
          attempted_parse := false
          entered_loop := false
          exit_code := EXIT_SUCCESS } := by
  simp [main_flow]

/-- C6 fails on the code: when `gst_parse_launch_full` rejects the
description, the program does report the description together with the
error message and skips the run loop, but `res` is never changed on that
path (main.c:490-494 jumps to `done` with `res` still `EXIT_SUCCESS`), so
the process exits 0, not with a failure code. -/
theorem parse_failure_counterexample :
    (main_flow ["A"] none none (fun _ => some "syntax error") true
        ).reported_parse_error
      = some ("urisourcebin uri=A ! decodebin3 ! multipartmux name=muxer ! fakesink",
          "syntax error")
    ∧ (main_flow ["A"] none none (fun _ => some "syntax error") true
        ).entered_loop = false
    ∧ ¬(main_flow ["A"] none none (fun _ => some "syntax error") true
        ).exit_code ≠ 0 := by
  refine ⟨rfl, rfl, ?_⟩
  intro h
  exact h rfl

/-- C6 amended: on a parse failure the program reports the assembled
description together with the underlying error message and does not enter
the run loop, but it terminates through the shared `done` path with the
success exit code 0 (no failure code is set). -/
theorem parse_failure_reports_and_exits (u : String) (rest : List String)
    (muxer sink : Option String) (parse : String → Option String)
    (ready_ok : Bool) (errmsg : String)
    (h : parse ((build_description (muxer.getD DEFAULT_MUXER)
        (sink.getD DEFAULT_SINK) (u :: rest)).getD "") = some errmsg) :
    main_flow (u :: rest) muxer sink parse ready_ok
      = { printed_usage := false
          reported_parse_error := some
            ((build_description (muxer.getD DEFAULT_MUXER)
                (sink.getD DEFAULT_SINK) (u :: rest)).getD "", errmsg)
          attempted_parse := true
          entered_loop := false
          exit_code := EXIT_SUCCESS } := by
  simp [main_flow, h]

/-- Concrete run of the amended C6: one source `A`, defaults, a parser
that fails with `syntax error`. -/
theorem parse_failure_reports_and_exits_witness :
    main_flow ["A"] none none (fun _ => some "syntax error") true
      = { printed_usage := false
          reported_parse_error := some
            ("urisourcebin uri=A ! decodebin3 ! multipartmux name=muxer ! fakesink",
              "syntax error")
          attempted_parse := true
          entered_loop := false
          exit_code := EXIT_SUCCESS } := by
  have h := parse_failure_reports_and_exits "A" [] none none
    (fun _ => some "syntax error") true "syntax error" rfl
  simpa using h

/-- C7: the recorded state field is written only by the confirmation
handler `change_player_state`: a request through `set_player_state` leaves
it unchanged whatever the framework replies, the buffering and keyboard
handlers leave it unchanged, and confirming the state already recorded is
a complete no-op that emits no request. -/
theorem recorded_state_only_on_confirmation (thiz : GstMultiSource)
    (target s : GstState) (ret : GstStateChangeReturn) (percent : Int)
    (line : List Char) :
    ((set_player_state thiz target ret).2.state = thiz.state)
    ∧ ((handle_buffering thiz percent).1.state = thiz.state)
    ∧ ((handle_keyboard thiz line ret).1.state = thiz.state)
    ∧ (thiz.state = s → change_player_state thiz s ret = (thiz, [])) := by
  refine ⟨?_, ?_, ?_, ?_⟩
  · cases ret <;> rfl
  · by_cases hl : thiz.is_live
    · simp [handle_buffering, hl]
    · by_cases hp : percent = 100
      · by_cases hs' : thiz.state = .PLAYING <;>
          simp [handle_buffering, hl, hp, hs']
      · simp [handle_buffering, hl, hp]
        split <;> rfl
  · have hset : ∀ t : GstState,
        (set_player_state thiz t ret).2.state = thiz.state := by
      intro t; cases ret <;> rfl
    simp only [handle_keyboard]
    split
    · rfl
    · split
      · split <;> simp [hset]
      · split <;> rfl
  · intro hs
    simp [change_player_state, hs]

/-- Concrete run of C7: a `NO_PREROLL` reply to a `PAUSED` request leaves
the recorded state at `READY`, and confirming `READY` again is a no-op. -/
theorem recorded_state_only_on_confirmation_witness :
    ((set_player_state { new0_ctx with state := .READY } .PAUSED
        .NO_PREROLL).2.state = .READY)
    ∧ (change_player_state { new0_ctx with state := .READY } .READY .ASYNC
        = ({ new0_ctx with state := .READY }, [])) := by
  constructor
  · exact (recorded_state_only_on_confirmation
      { new0_ctx with state := .READY } .PAUSED .READY .NO_PREROLL 0 []).1
  · exact (recorded_state_only_on_confirmation
      { new0_ctx with state := .READY } .PAUSED .READY .ASYNC 0 []).2.2.2 rfl

/-- One externally triggered supervisor callback, carrying the framework's
reply wherever the handler makes a state request through
`set_player_state`. -/
inductive SupEvent where
  | requestState (target : GstState) (ret : GstStateChangeReturn)
  | stateChanged (new : GstState) (ret : GstStateChangeReturn)
  | bufferingMsg (percent : Int)
  | streamCollectionMsg (collection : List GstStream)
  | keyboardLine (line : List Char) (ret : GstStateChangeReturn)

/-- Context after one callback runs.  The `STREAM_COLLECTION` arm only
sends a select-streams event and writes none of the modelled fields. -/
def step (thiz : GstMultiSource) : SupEvent → GstMultiSource
  | .requestState target ret => (set_player_state thiz target ret).2
  | .stateChanged n ret => (change_player_state thiz n ret).1
  | .bufferingMsg percent => (handle_buffering thiz percent).1
  | .streamCollectionMsg _ => thiz
  | .keyboardLine line ret => (handle_keyboard thiz line ret).1

/-- Context after a sequence of callbacks. -/
def run_events (thiz : GstMultiSource) (events : List SupEvent) :
    GstMultiSource :=
  events.foldl step thiz

/-- The framework reply an event carries, when it carries one. -/
def event_ret : SupEvent → Option GstStateChangeReturn
  | .requestState _ ret => some ret
  | .stateChanged _ ret => some ret
  | .keyboardLine _ ret => some ret
  | .bufferingMsg _ => none
  | .streamCollectionMsg _ => none

theorem set_player_state_live_new (thiz : GstMultiSource)
    (target : GstState) (ret : GstStateChangeReturn)
    (h : (set_player_state thiz target ret).2.is_live = true) :
    thiz.is_live = true ∨ ret = .NO_PREROLL := by
  cases ret <;> simp [set_player_state] at h <;> simp [h]

theorem set_player_state_live_mono (thiz : GstMultiSource)
    (target : GstState) (ret : GstStateChangeReturn)
    (h : thiz.is_live = true) :
    (set_player_state thiz target ret).2.is_live = true := by
  cases ret <;> simp [set_player_state, h]

theorem change_player_state_live_mono (thiz : GstMultiSource)
    (n : GstState) (ret : GstStateChangeReturn)
    (h : thiz.is_live = true) :
    (change_player_state thiz n ret).1.is_live = true := by
  by_cases hs : thiz.state = n
  · simp [change_player_state, hs, h]
  · cases n <;> cases ret <;> by_cases ha : thiz.auto_play = true <;>
      simp [change_player_state, hs, ha, set_player_state, h]

theorem change_player_state_live_new (thiz : GstMultiSource)
    (n : GstState) (ret : GstStateChangeReturn)
    (h : (change_player_state thiz n ret).1.is_live = true) :
    thiz.is_live = true ∨ ret = .NO_PREROLL := by
  by_cases hs : thiz.state = n
  · left; simpa [change_player_state, hs] using h
  · revert h
    cases n <;> cases ret <;> by_cases ha : thiz.auto_play = true <;>
      simp [change_player_state, hs, ha, set_player_state]

theorem handle_buffering_live (thiz : GstMultiSource) (percent : Int) :
    (handle_buffering thiz percent).1.is_live = thiz.is_live := by
  by_cases hl : thiz.is_live
  · simp [handle_buffering, hl]
  · by_cases hp : percent = 100
    · by_cases hs : thiz.state = .PLAYING <;>
        simp [handle_buffering, hl, hp, hs]
    · simp [handle_buffering, hl, hp]
      split <;> rfl

theorem handle_keyboard_live_mono (thiz : GstMultiSource)
    (line : List Char) (ret : GstStateChangeReturn)
    (h : thiz.is_live = true) :
    (handle_keyboard thiz line ret).1.is_live = true := by
  simp only [handle_keyboard]
  split
  · exact h
  · split
    · split <;> exact set_player_state_live_mono thiz _ ret h
    · split <;> exact h

theorem handle_keyboard_live_new (thiz : GstMultiSource)
    (line : List Char) (ret : GstStateChangeReturn)
    (h : (handle_keyboard thiz line ret).1.is_live = true) :
    thiz.is_live = true ∨ ret = .NO_PREROLL := by
  revert h
  simp only [handle_keyboard]
  split
  · exact fun h => Or.inl h
  · split
    · split <;> exact fun h => set_player_state_live_new thiz _ ret h
    · split
      · exact fun h => Or.inl h
      · exact fun h => Or.inl h

theorem step_live_mono (thiz : GstMultiSource) (e : SupEvent)
    (h : thiz.is_live = true) : (step thiz e).is_live = true := by
  cases e with
  | requestState target ret => exact set_player_state_live_mono thiz target ret h
  | stateChanged n ret => exact change_player_state_live_mono thiz n ret h
  | bufferingMsg percent => rw [step, handle_buffering_live]; exact h
  | streamCollectionMsg collection => exact h
  | keyboardLine line ret => exact handle_keyboard_live_mono thiz line ret h

theorem step_live_new (thiz : GstMultiSource) (e : SupEvent)
    (h : (step thiz e).is_live = true) :
    thiz.is_live = true ∨ event_ret e = some .NO_PREROLL := by
  cases e with
  | requestState target ret =>
      rcases set_player_state_live_new thiz target ret h with h' | h'
      · exact Or.inl h'
      · exact Or.inr (by simp [event_ret, h'])
  | stateChanged n ret =>
      rcases change_player_state_live_new thiz n ret h with h' | h'
      · exact Or.inl h'
      · exact Or.inr (by simp [event_ret, h'])
  | bufferingMsg percent =>
      rw [step, handle_buffering_live] at h
      exact Or.inl h
  | streamCollectionMsg collection => exact Or.inl h
  | keyboardLine line ret =>
      rcases handle_keyboard_live_new thiz line ret h with h' | h'
      · exact Or.inl h'
      · exact Or.inr (by simp [event_ret, h'])

/-- C10: the liveness flag starts false in the zeroed context, becomes true
only through a state-change request answered `NO_PREROLL`, is never reset
by any callback (over arbitrary callback sequences), and while it is set a
buffering event changes nothing and requests nothing. -/
theorem is_live_monotone (thiz : GstMultiSource) (events : List SupEvent)
    (e : SupEvent) (percent : Int) :
    new0_ctx.is_live = false
    ∧ (thiz.is_live = true → (run_events thiz events).is_live = true)
    ∧ (thiz.is_live = false → (step thiz e).is_live = true →
        event_ret e = some .NO_PREROLL)
    ∧ (thiz.is_live = true → handle_buffering thiz percent = (thiz, [])) := by
  refine ⟨rfl, ?_, ?_, ?_⟩
  · intro h
    induction events generalizing thiz with
    | nil => simpa [run_events] using h
    | cons ev rest ih =>
        have h1 : (step thiz ev).is_live = true := step_live_mono thiz ev h
        have h2 := ih _ h1
        simpa [run_events, List.foldl_cons] using h2
  · intro h0 h1
    rcases step_live_new thiz e h1 with h' | h'
    · rw [h0] at h'; exact absurd h' (by simp)
    · exact h'
  · intro h
    simp [handle_buffering, h]

/-- Concrete run of C10: a live context stays live over a callback
sequence; from a non-live context a `NO_PREROLL` reply is the event that
flips the flag; a live context ignores a 50% buffering event. -/
theorem is_live_monotone_witness :
    ((run_events { new0_ctx with is_live := true }
        [.bufferingMsg 50, .stateChanged .READY .ASYNC,
          .keyboardLine ['p'] .SUCCESS]).is_live = true)
    ∧ event_ret (.requestState .READY .NO_PREROLL) = some .NO_PREROLL
    ∧ handle_buffering { new0_ctx with is_live := true } 50
        = ({ new0_ctx with is_live := true }, []) := by
  refine ⟨?_, ?_, ?_⟩
  · exact (is_live_monotone { new0_ctx with is_live := true }
      [.bufferingMsg 50, .stateChanged .READY .ASYNC,
        .keyboardLine ['p'] .SUCCESS]
      (.requestState .READY .NO_PREROLL) 50).2.1 rfl
  · exact (is_live_monotone new0_ctx []
      (.requestState .READY .NO_PREROLL) 50).2.2.1 rfl (by decide)
  · exact (is_live_monotone { new0_ctx with is_live := true } []
      (.requestState .READY .NO_PREROLL) 50).2.2.2 rfl
